import Mathlib

/-!
Shallow embedding of the pyspec dataset-generation and spectra-encoding core:
  * src/pyspec/machine/spectra.py           (class Encoder)
  * src/pyspec/pyspec/machine/labels/generate_labels.py
    (LabelGenerator, CSVLabelGenerator, SimilarityDatasetLabelGenerator)

Numeric values (Python floats) are modelled as exact rationals; Python `round`
is round-half-to-even on the scaled value; `math.modf` splits a float into a
sign-preserving fractional part and a truncated whole part.  Fallible Python
code (assert / raise / NameError) is modelled with `Except String`.
-/

namespace PySpec

/-- Python `round` to an integer: round-half-to-even (bankers rounding). -/
def roundHalfEven (q : ℚ) : ℤ :=
  let f : ℤ := ⌊q⌋
  let r : ℚ := q - f
  if r < 1/2 then f
  else if 1/2 < r then f + 1
  else if f % 2 = 0 then f else f + 1

/-- Python `round(x, ndigits)` on a rational. -/
def pyRound (ndigits : ℕ) (q : ℚ) : ℚ :=
  (roundHalfEven (q * 10 ^ ndigits) : ℚ) / 10 ^ ndigits

/-- Truncation toward zero: the `whole` part returned by Python `math.modf`,
converted by `int(...)`. -/
def pyTrunc (q : ℚ) : ℤ := if 0 ≤ q then ⌊q⌋ else ⌈q⌉

/-! ## Encoder (src/pyspec/machine/spectra.py)

A spectrum is serialized as "mass:intensity" tokens; the embedding takes the
already-tokenized list of (mass, intensity) pairs as the spectrum content. -/

/-- Constructor configuration of `Encoder.__init__` (spectra.py lines 20-29).
The flag `plot_axis` is stored in the attribute `self.axis`. -/
structure Encoder where
  width : ℕ := 512
  height : ℕ := 512
  min_mz : ℤ := 0
  max_mz : ℤ := 2000
  axis : Bool := false
  intensity_max : ℚ := 1000
deriving Repr, DecidableEq

/-- One row of the dataframe built in `Encoder.encode` (spectra.py lines 44-51). -/
structure PeakRow where
  intensity : ℚ
  mz : ℚ
  nominal : ℤ
  frac : ℚ
deriving Repr, DecidableEq

/-- spectra.py lines 42-51: `frac, whole = math.modf(float(mass))`,
`nominal = int(whole)`, `frac = round(float(frac), 4)`. -/
def peakRow (p : ℚ × ℚ) : PeakRow :=
  { intensity := p.2
    mz := p.1
    nominal := pyTrunc p.1
    frac := pyRound 4 (p.1 - (pyTrunc p.1 : ℚ)) }

/-- The group-by key of spectra.py line 56: the mass rounded to 5 digits. -/
def groupKey (mz : ℚ) : ℚ := pyRound 5 mz

/-- Insert into a list kept in ascending order (pandas `groupby` sorts keys). -/
def insertAsc (q : ℚ) : List ℚ → List ℚ
  | [] => [q]
  | x :: xs => if q ≤ x then q :: x :: xs else x :: insertAsc q xs

/-- Ascending insertion sort over rationals. -/
def sortAsc (l : List ℚ) : List ℚ := l.foldr insertAsc []

/-- The distinct group keys of a spectrum, in the ascending order pandas
`groupby(...).sum()` produces. -/
def groupKeys (peaks : List (ℚ × ℚ)) : List ℚ :=
  sortAsc ((peaks.map fun p => groupKey p.1).dedup)

/-- The dataframe rows that fall into the group of key `k`. -/
def groupMembers (peaks : List (ℚ × ℚ)) (k : ℚ) : List PeakRow :=
  (peaks.map peakRow).filter fun r => groupKey r.mz = k

/-- spectra.py line 56: `.groupby(round(mz, 5)).sum()` sums every column
(intensity, mz, nominal and frac alike) over the group members. -/
def groupedRow (peaks : List (ℚ × ℚ)) (k : ℚ) : PeakRow :=
  { intensity := ((groupMembers peaks k).map fun r => r.intensity).sum
    mz := ((groupMembers peaks k).map fun r => r.mz).sum
    nominal := ((groupMembers peaks k).map fun r => r.nominal).sum
    frac := ((groupMembers peaks k).map fun r => r.frac).sum }

/-- The grouped dataframe of spectra.py line 56, one row per distinct key. -/
def groupedRows (peaks : List (ℚ × ℚ)) : List PeakRow :=
  (groupKeys peaks).map (groupedRow peaks)

/-- spectra.py line 59: keep rows with `nominal >= min_mz` and `nominal <= max_mz`. -/
def inBounds (e : Encoder) (r : PeakRow) : Bool :=
  decide (e.min_mz ≤ r.nominal) && decide (r.nominal ≤ e.max_mz)

/-- The dataframe after the bounds filter of spectra.py line 59. -/
def filteredRows (e : Encoder) (peaks : List (ℚ × ℚ)) : List PeakRow :=
  (groupedRows peaks).filter (inBounds e)

/-- The pandas min of the intensity column over a row list (0 on an empty frame,
matching pandas NaN only in that the value is never consumed then). -/
def intensityMin : List PeakRow → ℚ
  | [] => 0
  | r :: rs => (rs.map fun x => x.intensity).foldl min r.intensity

/-- The pandas max of the intensity column over a row list. -/
def intensityMax : List PeakRow → ℚ
  | [] => 0
  | r :: rs => (rs.map fun x => x.intensity).foldl max r.intensity

/-- spectra.py lines 61-62: `(intensity - min) / (max - min)`, with no guard:
when max = min the float division yields NaN (undefined), modelled as `none`. -/
def minMaxNormalize (e : Encoder) (peaks : List (ℚ × ℚ)) (r : PeakRow) : Option ℚ :=
  let lo := intensityMin (filteredRows e peaks)
  let hi := intensityMax (filteredRows e peaks)
  if hi - lo = 0 then none
  else some ((r.intensity - lo) / (hi - lo))

/-- The `intensity_min_max` column added in spectra.py lines 61-62. -/
def normalizedColumn (e : Encoder) (peaks : List (ℚ × ℚ)) : List (Option ℚ) :=
  (filteredRows e peaks).map (minMaxNormalize e peaks)

/-- The data handed to the three matplotlib bands of spectra.py lines 65-95:
the scatter of (nominal, frac) colored by normalized intensity, the stem plot
of (mz, normalized intensity) and the horizontal max-intensity bar. -/
structure Raster where
  scatter : List (ℤ × ℚ × Option ℚ)
  stems : List (ℚ × Option ℚ)
  barWidth : ℚ
  width : ℕ
  height : ℕ
deriving Repr, DecidableEq

/-- The names bound at module scope in spectra.py (its imports and its single
class), looked up when a function body reads a global: `random`, `List`,
`plt`, `Normalize`, `Colormap`, `griddata`, `np`, `math`, `pd`, `sns`,
`Spectra` and `Encoder`.  The name `axis` is NOT among them: the constructor
stores the flag as `self.axis`, so line 88 `if not axis:` raises NameError. -/
def spectraModuleNames : List String :=
  ["random", "List", "plt", "Normalize", "Colormap", "griddata",
   "np", "math", "pd", "sns", "Spectra", "Encoder"]

/-- `Encoder.encode` (spectra.py lines 31-95): parse, group, filter,
normalize, then render the three bands.  Before returning, line 88 evaluates
the bare name `axis`, which resolves neither locally nor at module scope, so
every call raises `NameError` instead of returning the raster. -/
def encode (e : Encoder) (peaks : List (ℚ × ℚ)) : Except String Raster :=
  let fr := filteredRows e peaks
  let raster : Raster :=
    { scatter := fr.map fun r => (r.nominal, r.frac, minMaxNormalize e peaks r)
      stems := fr.map fun r => (r.mz, minMaxNormalize e peaks r)
      barWidth := intensityMax fr
      width := e.width
      height := e.height }
  if "axis" ∈ spectraModuleNames then Except.ok raster
  else Except.error "NameError: name axis is not defined"

/-! ## LabelGenerator (src/pyspec/pyspec/machine/labels/generate_labels.py) -/

/-- One accumulated row of the `data` list of `generate_dataframe`
(generate_labels.py lines 51-55): columns `file`, `class`, `training`. -/
structure Row (Id Cat : Type) where
  file : Id
  cls : Cat
  training : Bool
deriving Repr, DecidableEq

/-- A concrete label generator, as the polymorphic contract of
generate_labels.py lines 14-78 sees it: `generate_labels input callback
training` is modelled by the list of (identifier, category, training-flag)
triples the generator passes to the callback during that invocation, in
emission order. -/
structure LabelGenerator (Id Cat : Type) where
  generate_labels : String → Bool → List (Id × Cat × Bool)
  contains_test_data : Bool := true
  is_file_based : Bool := true
  returns_multiple : Bool := false

/-- The callback of generate_labels.py lines 45-55, run over one emission
list: when the generator is file based, `assert os.path.exists(id)` aborts on
the first identifier missing from the file system `fs`; otherwise the row is
appended. -/
def runCallback {Id Cat : Type} (fileBased : Bool) (fs : Id → Bool) :
    List (Id × Cat × Bool) → Except String (List (Row Id Cat))
  | [] => Except.ok []
  | (i, c, t) :: rest =>
    if fileBased && !(fs i) then
      Except.error "AssertionError: please ensure all files exist."
    else do
      let rows ← runCallback fileBased fs rest
      Except.ok ({ file := i, cls := c, training := t } :: rows)

/-- `LabelGenerator.generate_dataframe` (generate_labels.py lines 37-67):
one pass with training=True, filter the accumulated rows on training=True
into the train table; when `contains_test_data()` a second pass with
training=False, filtering the (cumulative) rows on training=False into the
test table; otherwise the test table is None. -/
def generate_dataframe {Id Cat : Type} (g : LabelGenerator Id Cat) (fs : Id → Bool) (input : String) :
    Except String (List (Row Id Cat) × Option (List (Row Id Cat))) := do
  let data1 ← runCallback g.is_file_based fs (g.generate_labels input true)
  let trainTable := data1.filter fun r => r.training = true
  if g.contains_test_data then do
    let data2 ← runCallback g.is_file_based fs (g.generate_labels input false)
    let testTable := (data1 ++ data2).filter fun r => r.training = false
    Except.ok (trainTable, some testTable)
  else
    Except.ok (trainTable, none)

/-- `LabelGenerator.to_csv` (generate_labels.py lines 80-92): build the
dataframes, then serialize `result[0]` when training else `result[1]`.  When
the test table is None, `result[1].to_csv(...)` raises AttributeError.  The
value returned is the table that would be written. -/
def to_csv {Id Cat : Type} (g : LabelGenerator Id Cat) (fs : Id → Bool) (input : String)
    (training : Bool) : Except String (List (Row Id Cat)) := do
  let result ← generate_dataframe g fs input
  if training then Except.ok result.1
  else
    match result.2 with
    | some t => Except.ok t
    | none => Except.error "AttributeError: NoneType object has no attribute to_csv"

/-! ## CSVLabelGenerator (generate_labels.py lines 122-166)

The CSV file is modelled already lexed, as its list of rows, each a list of
string fields (the reader output of the csv module); the file system is a `Bool`
valued predicate standing for `os.path.exists`. -/

/-- Constructor configuration of `CSVLabelGenerator.__init__`
(generate_labels.py lines 164-166). -/
structure CSVConfig where
  field_id : String := "file"
  field_category : String := "class"
deriving Repr, DecidableEq

/-- One data row of the loop at generate_labels.py lines 154-162: read
`row[f]` as the id value and `row[c]` as the category; resolve the id first
as a literal path, then joined under `input`; raise when neither exists. -/
def resolveRow (fs : String → Bool) (input : String) (c f : ℕ)
    (row : List String) : Except String (String × String) :=
  match row.get? f, row.get? c with
  | some fv, some cv =>
    if fs fv then Except.ok (fv, cv)
    else if fs (input ++ "/" ++ fv) then Except.ok (input ++ "/" ++ fv, cv)
    else Except.error "Exception: we did not find the file"
  | _, _ => Except.error "IndexError: list index out of range"

/-- `CSVLabelGenerator.generate_labels` (generate_labels.py lines 127-162),
applied to the lexed content of the chosen csv file: take the header row,
assert it has at least two fields, locate the category column by comparing
the first two header fields against `field_category` (the id column is the
other of the two), then resolve and emit every data row in order.  The
result list holds the (resolved path, category) pairs passed to the
callback. -/
def csvGenerateLabels (cfg : CSVConfig) (fs : String → Bool) (input : String)
    (content : List (List String)) : Except String (List (String × String)) :=
  match content with
  | [] => Except.error "StopIteration"
  | header :: rest =>
    if header.length < 2 then
      Except.error "AssertionError: please ensure you have more than 2 columns!"
    else if header.get? 0 = some cfg.field_category then
      rest.mapM (resolveRow fs input 0 1)
    else if header.get? 1 = some cfg.field_category then
      rest.mapM (resolveRow fs input 1 0)
    else
      Except.error "AssertionError: please ensure that your column names match"

/-- The header predicate the code actually enforces (generate_labels.py lines
141-152): at least two fields, and the category name sits in the first or the
second field.  The configured id name `field_id` is never consulted. -/
def headerAccepted (cfg : CSVConfig) (header : List String) : Bool :=
  decide (2 ≤ header.length) &&
    (decide (header.get? 0 = some cfg.field_category) ||
     decide (header.get? 1 = some cfg.field_category))

/-- The csv serialization of `DataFrame.to_csv` at generate_labels.py lines
90-92 (index=False): the header row comes from the columns of the DataFrame.
A nonempty table was built from dicts with keys `file`, `class`, `training`,
so those are its columns and the header, followed by one row per record,
booleans rendered by Python `str`.  An EMPTY table is `DataFrame([])`, which
has no columns at all: `to_csv` then writes only the empty header line, which
the csv reader lexes back as a single empty row. -/
def csvOfTable (table : List (Row String String)) : List (List String) :=
  match table with
  | [] => [[]]
  | _ :: _ =>
    ["file", "class", "training"] ::
      table.map fun r => [r.file, r.cls, if r.training then "True" else "False"]

/-! ## SimilarityDatasetLabelGenerator (generate_labels.py lines 253-345)

The base query result is modelled as a list of records; pandas `sample(1)`
is modelled by an arbitrary selector `pick` giving the index of the chosen
element, and raises ValueError exactly on an empty pool. -/

/-- One record of the base query (spectra joined with their compound name);
the columns other than `spectra_id` and `name` travel through unchanged and
are collapsed into `msms`. -/
structure SpecRow where
  spectra_id : ℤ
  name : String
  msms : String
deriving Repr, DecidableEq

/-- An emitted similarity pair: `id=(value, sampled)` with a Bool category
(generate_labels.py lines 309-319). -/
structure PairRecord where
  base : SpecRow
  other : SpecRow
  category : Bool
  training : Bool
deriving Repr, DecidableEq

/-- The same-compound candidate pool of generate_labels.py lines 303-304:
rows sharing the name of the base row with a different spectra_id. -/
def samePool (spectra : List SpecRow) (row : SpecRow) : List SpecRow :=
  spectra.filter fun s => decide (s.name = row.name) && decide (s.spectra_id ≠ row.spectra_id)

/-- The different-compound candidate pool of generate_labels.py line 306. -/
def diffPool (spectra : List SpecRow) (row : SpecRow) : List SpecRow :=
  spectra.filter fun s => decide (s.name ≠ row.name)

/-- pandas `DataFrame.sample(1)`: raises ValueError on an empty frame, else
returns the element the random draw `pick` selects. -/
def sampleOne (pick : List SpecRow → ℕ) : List SpecRow → Except String SpecRow
  | [] => Except.error "ValueError"
  | h :: t => Except.ok ((h :: t).get ⟨pick (h :: t) % (h :: t).length, Nat.mod_lt _ (Nat.succ_pos t.length)⟩)

/-- The `for x in range(0, self.resampling)` loop inside `function`
(generate_labels.py lines 302-319): each iteration samples a same-compound
and a different-compound row, then emits a positive and a negative pair.  A
ValueError from either sample ends the loop via the `except` at lines
320-321, keeping the pairs already emitted. -/
def simRowLoop (pick : List SpecRow → ℕ) (spectra : List SpecRow)
    (training : Bool) (row : SpecRow) : ℕ → List PairRecord
  | 0 => []
  | n + 1 =>
    match sampleOne pick (samePool spectra row) with
    | Except.error _ => []
    | Except.ok s =>
      match sampleOne pick (diffPool spectra row) with
      | Except.error _ => []
      | Except.ok d =>
        { base := row, other := s, category := true, training := training } ::
        { base := row, other := d, category := false, training := training } ::
        simRowLoop pick spectra training row n

/-- `SimilarityDatasetLabelGenerator.generate_labels` (generate_labels.py
lines 268-324): `spectra.apply(function, axis=1)` runs the sampling loop for
every base row in order; the emitted pairs are the concatenation of each
contribution of each row. -/
def simGenerateLabels (pick : List SpecRow → ℕ) (resampling : ℕ)
    (spectra : List SpecRow) (training : Bool) : List PairRecord :=
  (spectra.map fun row => simRowLoop pick spectra training row resampling).flatten

/-! ## Helper lemmas -/

/-- A left fold of `min` over a list of copies of its seed is the seed. -/
lemma foldl_min_const (l : List ℚ) (q : ℚ) (h : ∀ x ∈ l, x = q) :
    l.foldl min q = q := by
  induction l with
  | nil => rfl
  | cons x xs ih =>
    have hx : x = q := h x (List.mem_cons_self x xs)
    rw [List.foldl_cons, hx, min_self]
    exact ih fun y hy => h y (List.mem_cons_of_mem x hy)

/-- A left fold of `max` over a list of copies of its seed is the seed. -/
lemma foldl_max_const (l : List ℚ) (q : ℚ) (h : ∀ x ∈ l, x = q) :
    l.foldl max q = q := by
  induction l with
  | nil => rfl
  | cons x xs ih =>
    have hx : x = q := h x (List.mem_cons_self x xs)
    rw [List.foldl_cons, hx, max_self]
    exact ih fun y hy => h y (List.mem_cons_of_mem x hy)

/-- When every intensity of a nonempty frame equals `q`, the pandas min is `q`. -/
lemma intensityMin_const (l : List PeakRow) (q : ℚ) (hne : l ≠ [])
    (h : ∀ r ∈ l, r.intensity = q) : intensityMin l = q := by
  cases l with
  | nil => exact absurd rfl hne
  | cons r rs =>
    have hr : r.intensity = q := h r (List.mem_cons_self r rs)
    show (rs.map fun x => x.intensity).foldl min r.intensity = q
    rw [hr]
    exact foldl_min_const _ q fun x hx => by
      obtain ⟨s, hs, hsx⟩ := List.mem_map.mp hx
      rw [← hsx]
      exact h s (List.mem_cons_of_mem r hs)

/-- When every intensity of a nonempty frame equals `q`, the pandas max is `q`. -/
lemma intensityMax_const (l : List PeakRow) (q : ℚ) (hne : l ≠ [])
    (h : ∀ r ∈ l, r.intensity = q) : intensityMax l = q := by
  cases l with
  | nil => exact absurd rfl hne
  | cons r rs =>
    have hr : r.intensity = q := h r (List.mem_cons_self r rs)
    show (rs.map fun x => x.intensity).foldl max r.intensity = q
    rw [hr]
    exact foldl_max_const _ q fun x hx => by
      obtain ⟨s, hs, hsx⟩ := List.mem_map.mp hx
      rw [← hsx]
      exact h s (List.mem_cons_of_mem r hs)

/-- A map whose function is constantly `none` is a replicate of `none`. -/
lemma map_eq_replicate_none {α β : Type} (l : List α) (f : α → Option β)
    (h : ∀ x ∈ l, f x = none) : l.map f = List.replicate l.length none := by
  induction l with
  | nil => rfl
  | cons x xs ih =>
    rw [List.map_cons, List.length_cons, List.replicate_succ,
      h x (List.mem_cons_self x xs)]
    rw [ih fun y hy => h y (List.mem_cons_of_mem x hy)]

/-! ## Claims about the Encoder -/

/-- C1: after grouping by the mass rounded to 5 digits, a group survives the
drop of spectra.py line 59 (and hence reaches the rendered bands) exactly
when its nominal value lies in the inclusive interval [min_mz, max_mz];
groups whose nominal value falls outside are discarded. -/
theorem filtered_groups_within_bounds (e : Encoder) (peaks : List (ℚ × ℚ))
    (g : PeakRow) (hg : g ∈ groupedRows peaks) :
    g ∈ filteredRows e peaks ↔ e.min_mz ≤ g.nominal ∧ g.nominal ≤ e.max_mz := by
  unfold filteredRows inBounds
  rw [List.mem_filter]
  simp [hg]

theorem filtered_groups_within_bounds_witness :
    ({ intensity := 200, mz := 201/2, nominal := 100, frac := 1/2 } : PeakRow) ∈
        groupedRows [(201/2, 200)] ∧
      (({ intensity := 200, mz := 201/2, nominal := 100, frac := 1/2 } : PeakRow) ∈
          filteredRows {} [(201/2, 200)] ↔
        ({} : Encoder).min_mz ≤ 100 ∧ (100 : ℤ) ≤ ({} : Encoder).max_mz) :=
  ⟨by norm_num [groupedRows, groupKeys, sortAsc, insertAsc, groupKey, pyRound, roundHalfEven, List.dedup, groupedRow, groupMembers, peakRow, pyTrunc], filtered_groups_within_bounds {} [(201/2, 200)] _ (by norm_num [groupedRows, groupKeys, sortAsc, insertAsc, groupKey, pyRound, roundHalfEven, List.dedup, groupedRow, groupMembers, peakRow, pyTrunc])⟩

/-- C2 counterexample: the claim says `encode` guards the min-max
normalization and yields a defined value when all intensities are equal; on
the spectrum "100.5:50 200.25:50" both groups survive the bounds filter with
equal intensities, and every entry of the normalized column is undefined
(`none`, the NaN produced by the unguarded division at spectra.py 61-62). -/
theorem normalize_unguarded_counterexample :
    (filteredRows {} [(201/2, 50), (801/4, 50)]).length = 2 ∧
      normalizedColumn {} [(201/2, 50), (801/4, 50)] = [none, none] := by
  refine ⟨?_, ?_⟩ <;>
    norm_num [normalizedColumn, filteredRows, inBounds, minMaxNormalize,
      intensityMin, intensityMax, List.filter, groupedRows, groupKeys, sortAsc, insertAsc, groupKey, pyRound, roundHalfEven, List.dedup, groupedRow, groupMembers, peakRow, pyTrunc]

/-- C2 amended: `encode` does NOT guard the min-max normalization; whenever
every group that survives the filter has one and the same intensity, the
denominator max - min is zero and the whole normalized column is undefined
(NaN, modelled as `none`) instead of some defined fallback value. -/
theorem normalize_all_equal_undefined (e : Encoder) (peaks : List (ℚ × ℚ))
    (q : ℚ) (hall : ∀ r ∈ filteredRows e peaks, r.intensity = q) :
    normalizedColumn e peaks =
      List.replicate (filteredRows e peaks).length none := by
  unfold normalizedColumn
  apply map_eq_replicate_none
  intro r hr
  have hne : filteredRows e peaks ≠ [] := by
    intro hnil
    rw [hnil] at hr
    exact absurd hr (List.not_mem_nil r)
  unfold minMaxNormalize
  rw [intensityMin_const _ q hne hall, intensityMax_const _ q hne hall]
  simp

theorem normalize_all_equal_undefined_witness :
    normalizedColumn {} [(201/2, 80), (801/4, 80)] =
      List.replicate (filteredRows {} [(201/2, 80), (801/4, 80)]).length none :=
  normalize_all_equal_undefined {} [(201/2, 80), (801/4, 80)] 80 (by
    norm_num [filteredRows, inBounds, List.filter, groupedRows, groupKeys, sortAsc, insertAsc, groupKey, pyRound, roundHalfEven, List.dedup, groupedRow, groupMembers, peakRow, pyTrunc])

/-- C7: the code never gets to return the raster. Line 88 of spectra.py reads
the bare name `axis`, but the constructor stored the flag as `self.axis` and
no module-level `axis` exists, so every `encode` call ends in NameError; in
consequence `encodes` (lines 97-115) never reaches `plt.savefig` and writes
no content-addressed file.  The intended deterministic raster is unreachable. -/
theorem encode_always_raises_nameerror (e : Encoder) (peaks : List (ℚ × ℚ)) :
    encode e peaks = Except.error "NameError: name axis is not defined" := rfl

/-- C9: the group-by of spectra.py line 56 sums every column, so a group
formed from peaks sharing a rounded mass carries the SUM of the member
nominal parts and the SUM of the member fractional parts (not the integer
and fractional part of the shared mass), and the bounds filter of line 59 is
evaluated on that summed nominal value. -/
theorem groupby_sums_all_columns (e : Encoder) (peaks : List (ℚ × ℚ)) (k : ℚ)
    (_h2 : 2 ≤ (groupMembers peaks k).length) :
    (groupedRow peaks k).nominal =
        ((peaks.filter fun p => groupKey p.1 = k).map fun p => pyTrunc p.1).sum ∧
      (groupedRow peaks k).frac =
        ((peaks.filter fun p => groupKey p.1 = k).map fun p =>
          pyRound 4 (p.1 - (pyTrunc p.1 : ℚ))).sum ∧
      inBounds e (groupedRow peaks k) =
        (decide (e.min_mz ≤ ((peaks.filter fun p => groupKey p.1 = k).map fun p =>
            pyTrunc p.1).sum) &&
          decide (((peaks.filter fun p => groupKey p.1 = k).map fun p =>
            pyTrunc p.1).sum ≤ e.max_mz)) := by
  have hmem : groupMembers peaks k =
      (peaks.filter fun p => groupKey p.1 = k).map peakRow := by
    unfold groupMembers
    exact List.filter_map peakRow peaks
  have hnom : (groupedRow peaks k).nominal =
      ((peaks.filter fun p => groupKey p.1 = k).map fun p => pyTrunc p.1).sum := by
    show ((groupMembers peaks k).map fun r => r.nominal).sum = _
    rw [hmem, List.map_map]
    rfl
  have hfrac : (groupedRow peaks k).frac =
      ((peaks.filter fun p => groupKey p.1 = k).map fun p =>
        pyRound 4 (p.1 - (pyTrunc p.1 : ℚ))).sum := by
    show ((groupMembers peaks k).map fun r => r.frac).sum = _
    rw [hmem, List.map_map]
    rfl
  refine ⟨hnom, hfrac, ?_⟩
  unfold inBounds
  rw [hnom]

/-! ## Helper lemmas for the generator contract -/

/-- Inversion of an Except bind that succeeded. -/
lemma except_bind_ok {ε α β : Type} (x : Except ε α) (f : α → Except ε β)
    (b : β) (h : (x >>= f) = Except.ok b) :
    ∃ a, x = Except.ok a ∧ f a = Except.ok b := by
  cases x with
  | error e => simp [Bind.bind, Except.bind] at h
  | ok a => exact ⟨a, rfl, by simpa [Bind.bind, Except.bind] using h⟩

/-- When every emitted identifier passes the existence check, the callback
accumulates exactly one row per emission, in order. -/
lemma runCallback_ok_of_forall {Id Cat : Type} (fb : Bool) (fs : Id → Bool)
    (l : List (Id × Cat × Bool)) (h : ∀ x ∈ l, fb = true → fs x.1 = true) :
    runCallback fb fs l =
      Except.ok (l.map fun x =>
        ({ file := x.1, cls := x.2.1, training := x.2.2 } : Row Id Cat)) := by
  induction l with
  | nil => rfl
  | cons x xs ih =>
    have hx : fb = true → fs x.1 = true := h x (List.mem_cons_self x xs)
    have hcond : (fb && !(fs x.1)) = false := by
      cases hfb : fb
      · rfl
      · simp [hx hfb]
    have ihx := ih fun y hy => h y (List.mem_cons_of_mem x hy)
    simp [runCallback, hcond, ihx, Bind.bind, Except.bind]

/-- A successful callback run certifies that, for a file-based generator,
every emitted identifier existed. -/
lemma runCallback_ok_all_exist {Id Cat : Type} (fs : Id → Bool)
    (l : List (Id × Cat × Bool)) (rows : List (Row Id Cat))
    (h : runCallback true fs l = Except.ok rows) :
    ∀ x ∈ l, fs x.1 = true := by
  induction l generalizing rows with
  | nil => intro x hx; exact absurd hx (List.not_mem_nil x)
  | cons x xs ih =>
    intro y hy
    by_cases hfs : fs x.1 = true
    · rcases List.mem_cons.mp hy with hyx | hmem
      · rw [hyx]; exact hfs
      · have hcond : (true && !(fs x.1)) = false := by simp [hfs]
        rw [runCallback, hcond] at h
        simp only [Bool.false_eq_true, if_false] at h
        obtain ⟨rs, hrs, _⟩ := except_bind_ok _ _ _ h
        exact ih rs hrs y hmem
    · have hcond : (true && !(fs x.1)) = true := by
        simp [Bool.not_eq_true] at hfs
        simp [hfs]
      rw [runCallback, hcond] at h
      simp at h

/-- A successful callback run returns exactly the emitted rows. -/
lemma runCallback_ok_rows {Id Cat : Type} (fb : Bool) (fs : Id → Bool)
    (l : List (Id × Cat × Bool)) (rows : List (Row Id Cat))
    (h : runCallback fb fs l = Except.ok rows) :
    rows = l.map fun x =>
      ({ file := x.1, cls := x.2.1, training := x.2.2 } : Row Id Cat) := by
  induction l generalizing rows with
  | nil =>
    simp [runCallback] at h
    rw [h]
    rfl
  | cons x xs ih =>
    rw [runCallback] at h
    by_cases hcond : (fb && !(fs x.1)) = true
    · rw [if_pos hcond] at h
      simp at h
    · rw [if_neg hcond] at h
      obtain ⟨rs, hrs, hok⟩ := except_bind_ok _ _ _ h
      simp only [Except.ok.injEq] at hok
      rw [← hok, ih rs hrs, List.map_cons]

/-- The callback aborts with an error as soon as some emission misses the
file check. -/
lemma runCallback_error_of_missing {Id Cat : Type} (fs : Id → Bool)
    (l : List (Id × Cat × Bool)) (hmiss : ∃ x ∈ l, fs x.1 = false) :
    ∃ msg, (runCallback true fs l : Except String (List (Row Id Cat))) = Except.error msg := by
  cases hres : runCallback true fs l with
  | error e => exact ⟨e, rfl⟩
  | ok rows =>
    obtain ⟨x, hx, hfs⟩ := hmiss
    have := runCallback_ok_all_exist fs l rows hres x hx
    rw [hfs] at this
    simp at this

/-! ## Claims about the generator contract -/

/-- C5: with a file-based generator, every identifier emitted during dataset
generation is existence-checked; the first missing identifier turns the whole
`generate_dataframe` call into an error (no partial dataset), and a returned
dataset certifies that every emitted identifier existed. -/
theorem generate_dataframe_checks_files {Id Cat : Type}
    (g : LabelGenerator Id Cat) (fs : Id → Bool) (input : String)
    (hfb : g.is_file_based = true) :
    ((∃ x ∈ g.generate_labels input true, fs x.1 = false) →
      ∃ msg, generate_dataframe g fs input = Except.error msg) ∧
    (∀ res, generate_dataframe g fs input = Except.ok res →
      (∀ x ∈ g.generate_labels input true, fs x.1 = true) ∧
      (g.contains_test_data = true →
        ∀ x ∈ g.generate_labels input false, fs x.1 = true)) := by
  constructor
  · intro hmiss
    obtain ⟨msg, hmsg⟩ := runCallback_error_of_missing fs _ hmiss
    refine ⟨msg, ?_⟩
    unfold generate_dataframe
    rw [hfb, hmsg]
    rfl
  · intro res hres
    unfold generate_dataframe at hres
    obtain ⟨data1, hdata1, hrest⟩ := except_bind_ok _ _ _ hres
    rw [hfb] at hdata1
    refine ⟨runCallback_ok_all_exist fs _ data1 hdata1, ?_⟩
    intro hctd
    rw [hctd] at hrest
    simp only [if_true] at hrest
    obtain ⟨data2, hdata2, _⟩ := except_bind_ok _ _ _ hrest
    rw [hfb] at hdata2
    exact runCallback_ok_all_exist fs _ data2 hdata2

theorem generate_dataframe_checks_files_witness :
    (∃ x ∈ (fun (_ : String) (t : Bool) =>
        if t then [("a.png", "clean", true)] else ([] : List (String × String × Bool))) "d" true,
      (fun (_ : String) => false) x.1 = false) ∧
    ∃ msg,
      generate_dataframe
        { generate_labels := fun _ t =>
            if t then [("a.png", "clean", true)] else [] }
        (fun _ => false) "d" = Except.error msg :=
  ⟨⟨("a.png", "clean", true), by simp, rfl⟩,
    (generate_dataframe_checks_files
      { generate_labels := fun _ t => if t then [("a.png", "clean", true)] else [] }
      (fun _ => false) "d" rfl).1 ⟨("a.png", "clean", true), by simp, rfl⟩⟩

/-- C6: `generate_dataframe` runs the generator once with training=True and
collects those rows into the train table; exactly when `contains_test_data()`
holds it runs it again with training=False for the test table, otherwise the
test table is None; under the (universally satisfied) assumption that the
generator forwards the training flag it was called with, every emitted record
lands in exactly one of the two tables, matching its flag. -/
theorem generate_dataframe_partitions {Id Cat : Type}
    (g : LabelGenerator Id Cat) (fs : Id → Bool) (input : String)
    (hfwd : ∀ t : Bool, ∀ x ∈ g.generate_labels input t, x.2.2 = t)
    (hex : ∀ t : Bool, ∀ x ∈ g.generate_labels input t,
      g.is_file_based = true → fs x.1 = true) :
    generate_dataframe g fs input =
      Except.ok
        ((g.generate_labels input true).map (fun x =>
          ({ file := x.1, cls := x.2.1, training := x.2.2 } : Row Id Cat)),
         if g.contains_test_data = true then
           some ((g.generate_labels input false).map fun x =>
             ({ file := x.1, cls := x.2.1, training := x.2.2 } : Row Id Cat))
         else none) ∧
    (∀ r ∈ (g.generate_labels input true).map (fun x =>
        ({ file := x.1, cls := x.2.1, training := x.2.2 } : Row Id Cat)),
      r.training = true) ∧
    (∀ r ∈ (g.generate_labels input false).map (fun x =>
        ({ file := x.1, cls := x.2.1, training := x.2.2 } : Row Id Cat)),
      r.training = false) := by
  have htr : ∀ r ∈ (g.generate_labels input true).map (fun x =>
      ({ file := x.1, cls := x.2.1, training := x.2.2 } : Row Id Cat)),
      r.training = true := by
    intro r hr
    obtain ⟨x, hx, hxr⟩ := List.mem_map.mp hr
    rw [← hxr]
    exact hfwd true x hx
  have hte : ∀ r ∈ (g.generate_labels input false).map (fun x =>
      ({ file := x.1, cls := x.2.1, training := x.2.2 } : Row Id Cat)),
      r.training = false := by
    intro r hr
    obtain ⟨x, hx, hxr⟩ := List.mem_map.mp hr
    rw [← hxr]
    exact hfwd false x hx
  refine ⟨?_, htr, hte⟩
  have hrc1 := runCallback_ok_of_forall g.is_file_based fs
    (g.generate_labels input true) (fun x hx hfb => hex true x hx hfb)
  have hrc2 := runCallback_ok_of_forall g.is_file_based fs
    (g.generate_labels input false) (fun x hx hfb => hex false x hx hfb)
  have hfilter1 : ((g.generate_labels input true).map (fun x =>
      ({ file := x.1, cls := x.2.1, training := x.2.2 } : Row Id Cat))).filter
        (fun r => r.training = true) =
      (g.generate_labels input true).map (fun x =>
        ({ file := x.1, cls := x.2.1, training := x.2.2 } : Row Id Cat)) := by
    apply List.filter_eq_self.mpr
    intro r hr
    simp [htr r hr]
  have hfilter2 : ((g.generate_labels input true).map (fun x =>
      ({ file := x.1, cls := x.2.1, training := x.2.2 } : Row Id Cat))).filter
        (fun r => r.training = false) = [] := by
    apply List.filter_eq_nil_iff.mpr
    intro r hr
    simp [htr r hr]
  have hfilter3 : ((g.generate_labels input false).map (fun x =>
      ({ file := x.1, cls := x.2.1, training := x.2.2 } : Row Id Cat))).filter
        (fun r => r.training = false) =
      (g.generate_labels input false).map (fun x =>
        ({ file := x.1, cls := x.2.1, training := x.2.2 } : Row Id Cat)) := by
    apply List.filter_eq_self.mpr
    intro r hr
    simp [hte r hr]
  unfold generate_dataframe
  rw [hrc1]
  cases hctd : g.contains_test_data with
  | true =>
    simp only [if_true, Bind.bind, Except.bind, hrc2, List.filter_append,
      hfilter1, hfilter2, hfilter3, List.nil_append]
  | false =>
    simp only [Bool.false_eq_true, if_false, Bind.bind, Except.bind, hfilter1]

theorem generate_dataframe_partitions_witness :
    generate_dataframe
        { generate_labels := fun _ t =>
            if t then [("a.png", "clean", true)] else [("b.png", "dirty", false)] }
        (fun _ => true) "d" =
      Except.ok
        (((fun (_ : String) (t : Bool) =>
            if t then [("a.png", "clean", true)] else [("b.png", "dirty", false)]) "d" true).map
          (fun x => ({ file := x.1, cls := x.2.1, training := x.2.2 } : Row String String)),
         if ({ generate_labels := fun _ t =>
              if t then [("a.png", "clean", true)] else [("b.png", "dirty", false)] } :
            LabelGenerator String String).contains_test_data = true then
           some ((((fun (_ : String) (t : Bool) =>
              if t then [("a.png", "clean", true)] else [("b.png", "dirty", false)]) "d" false)).map
             fun x => ({ file := x.1, cls := x.2.1, training := x.2.2 } : Row String String))
         else none) ∧
    (∀ r ∈ (((fun (_ : String) (t : Bool) =>
        if t then [("a.png", "clean", true)] else [("b.png", "dirty", false)]) "d" true)).map
        (fun x => ({ file := x.1, cls := x.2.1, training := x.2.2 } : Row String String)),
      r.training = true) ∧
    (∀ r ∈ (((fun (_ : String) (t : Bool) =>
        if t then [("a.png", "clean", true)] else [("b.png", "dirty", false)]) "d" false)).map
        (fun x => ({ file := x.1, cls := x.2.1, training := x.2.2 } : Row String String)),
      r.training = false) :=
  generate_dataframe_partitions
    { generate_labels := fun _ t =>
        if t then [("a.png", "clean", true)] else [("b.png", "dirty", false)] }
    (fun _ => true) "d"
    (by
      intro t x hx
      cases t
      · simp at hx
        subst hx
        rfl
      · simp at hx
        subst hx
        rfl)
    (by intro t x hx hfb; rfl)

/-- C10: when a generator does not supply its own test partition, the test
slot of `generate_dataframe` is None, and `to_csv` with training=False
dereferences it (`result[1].to_csv`), so the call always fails; conversely a
successful training=False `to_csv` is only possible for generators whose
`contains_test_data()` is true. -/
theorem to_csv_fails_without_test_data {Id Cat : Type}
    (g : LabelGenerator Id Cat) (fs : Id → Bool) (input : String)
    (h : g.contains_test_data = false) :
    ∃ msg, to_csv g fs input false = Except.error msg := by
  unfold to_csv
  cases hgd : generate_dataframe g fs input with
  | error e => exact ⟨e, by simp [Bind.bind, Except.bind]⟩
  | ok res =>
    have hsnd : res.2 = none := by
      unfold generate_dataframe at hgd
      obtain ⟨data1, _, hrest⟩ := except_bind_ok _ _ _ hgd
      rw [h] at hrest
      simp only [Bool.false_eq_true, if_false, Except.ok.injEq] at hrest
      rw [← hrest]
    refine ⟨"AttributeError: NoneType object has no attribute to_csv", ?_⟩
    simp [Bind.bind, Except.bind, hsnd]

theorem to_csv_fails_without_test_data_witness :
    ∃ msg,
      to_csv
        ({ generate_labels := fun _ _ => [],
           contains_test_data := false,
           is_file_based := false } : LabelGenerator String String)
        (fun _ => true) "d" false = Except.error msg :=
  to_csv_fails_without_test_data
    { generate_labels := fun _ _ => [],
      contains_test_data := false,
      is_file_based := false }
    (fun _ => true) "d" rfl

/-- Unfolding of the CSV reader on a nonempty file. -/
lemma csvGenerateLabels_cons (cfg : CSVConfig) (fs : String → Bool)
    (input : String) (header : List String) (rest : List (List String)) :
    csvGenerateLabels cfg fs input (header :: rest) =
      if header.length < 2 then
        Except.error "AssertionError: please ensure you have more than 2 columns!"
      else if header.get? 0 = some cfg.field_category then
        rest.mapM (resolveRow fs input 0 1)
      else if header.get? 1 = some cfg.field_category then
        rest.mapM (resolveRow fs input 1 0)
      else
        Except.error "AssertionError: please ensure that your column names match" :=
  rfl

/-- Reading back rows serialized by `csvOfTable` (id in field 0, category in
field 1) resolves every id literally when it exists and reproduces the
(id, class) pairs in order. -/
lemma csv_read_of_table (fs : String → Bool) (input : String)
    (table : List (Row String String)) (h : ∀ r ∈ table, fs r.file = true) :
    (table.map fun r =>
        [r.file, r.cls, if r.training then "True" else "False"]).mapM
      (resolveRow fs input 1 0) =
      Except.ok (table.map fun r => (r.file, r.cls)) := by
  induction table with
  | nil => rfl
  | cons r rs ih =>
    rw [List.map_cons, List.mapM_cons]
    have hr : fs r.file = true := h r (List.mem_cons_self r rs)
    have hres : resolveRow fs input 1 0
        [r.file, r.cls, if r.training then "True" else "False"] =
        Except.ok (r.file, r.cls) := by
      simp [resolveRow, hr]
    rw [hres, ih fun x hx => h x (List.mem_cons_of_mem r hx)]
    rfl

/-- C8 counterexample: the round-trip claim fails on the empty dataset,
which is reachable — a generator that discovers no records yields an empty
train table; `DataFrame([])` has no columns, so `to_csv` writes no
file,class,training header and the CSV reader rejects what it reads back at
the header length assert instead of reproducing the (empty) pair set. -/
theorem to_csv_roundtrip_empty_counterexample :
    generate_dataframe
        ({ generate_labels := fun _ _ => [] } : LabelGenerator String String)
        (fun _ => true) "d" = Except.ok ([], some []) ∧
    csvGenerateLabels {} (fun _ => true) "d"
        (csvOfTable []) =
      Except.error "AssertionError: please ensure you have more than 2 columns!" :=
  ⟨rfl, rfl⟩

/-- C8 amended: for a file-based generator whose dataset generation
succeeded with a NONEMPTY train table, serializing that table with `to_csv`
(header file,class,training) and re-reading it with the CSV generator under
its default column names reproduces exactly the (id, class) pairs, in order;
the empty table, by contrast, serializes without a header and fails to read
back. -/
theorem to_csv_roundtrip (g : LabelGenerator String String) (fs : String → Bool)
    (input : String) (train : List (Row String String))
    (testOpt : Option (List (Row String String)))
    (hfb : g.is_file_based = true)
    (hok : generate_dataframe g fs input = Except.ok (train, testOpt))
    (hne : train ≠ []) :
    csvGenerateLabels {} fs input (csvOfTable train) =
      Except.ok (train.map fun r => (r.file, r.cls)) := by
  have hex : ∀ r ∈ train, fs r.file = true := by
    unfold generate_dataframe at hok
    obtain ⟨data1, hdata1, hrest⟩ := except_bind_ok _ _ _ hok
    rw [hfb] at hdata1
    have hall := runCallback_ok_all_exist fs _ data1 hdata1
    have hrows := runCallback_ok_rows true fs _ data1 hdata1
    have htrain : train = data1.filter fun r => r.training = true := by
      cases hctd : g.contains_test_data with
      | true =>
        rw [hctd] at hrest
        simp only [if_true] at hrest
        obtain ⟨data2, _, hfin⟩ := except_bind_ok _ _ _ hrest
        simp only [Except.ok.injEq, Prod.mk.injEq] at hfin
        exact hfin.1.symm
      | false =>
        rw [hctd] at hrest
        simp only [Bool.false_eq_true, if_false, Except.ok.injEq,
          Prod.mk.injEq] at hrest
        exact hrest.1.symm
    intro r hr
    rw [htrain] at hr
    have hr1 : r ∈ data1 := List.mem_of_mem_filter hr
    rw [hrows] at hr1
    obtain ⟨x, hx, hxr⟩ := List.mem_map.mp hr1
    rw [← hxr]
    exact hall x hx
  cases train with
  | nil => exact absurd rfl hne
  | cons r rs =>
    rw [show csvOfTable (r :: rs) =
        ["file", "class", "training"] ::
          ((r :: rs).map fun x =>
            [x.file, x.cls, if x.training then "True" else "False"]) from rfl]
    rw [csvGenerateLabels_cons, if_neg (by decide), if_neg (by decide),
      if_pos (by decide)]
    exact csv_read_of_table fs input (r :: rs) hex

theorem to_csv_roundtrip_witness :
    csvGenerateLabels {} (fun _ => true) "d"
        (csvOfTable [{ file := "img/a.png", cls := "clean", training := true }]) =
      Except.ok
        ([({ file := "img/a.png", cls := "clean", training := true } : Row String String)].map
          fun r => (r.file, r.cls)) :=
  to_csv_roundtrip
    { generate_labels := fun _ t =>
        if t then [("img/a.png", "clean", true)] else [("img/b.png", "clean", false)] }
    (fun _ => true) "d"
    [{ file := "img/a.png", cls := "clean", training := true }]
    (some [{ file := "img/b.png", cls := "clean", training := false }])
    rfl rfl (List.cons_ne_nil _ _)

/-- C3 counterexample: the claim says the header is accepted only when it
consists of exactly the two configured column names; but generate_labels.py
lines 144-152 compare the first two header fields against `field_category`
alone, so the header `class,banana` — whose second name is NOT the configured
id name `file` — is accepted and rows are emitted. -/
theorem csv_accepts_unconfigured_id_header :
    csvGenerateLabels {} (fun s => s = "a.png") "d"
        [["class", "banana"], ["good", "a.png"]] =
      Except.ok [("a.png", "good")] ∧
    ({} : CSVConfig).field_id ≠ "banana" := by
  constructor
  · rw [csvGenerateLabels_cons, if_neg (by decide), if_pos (by decide),
      List.mapM_cons, List.mapM_nil]
    simp [resolveRow, Bind.bind, Except.bind, pure, Except.pure]
  · decide

/-- C3 amended: the header is rejected (fatally, before any row is emitted)
exactly when it has fewer than two fields or neither of its first two fields
equals the configured category name; when the category name is found, the
category column is located by that name and the id column is simply the
other of the first two columns — the configured id name is never compared,
and columns beyond the second are ignored. -/
theorem csv_header_checks_category_only (cfg : CSVConfig) (fs : String → Bool)
    (input : String) (header : List String) (rest : List (List String)) :
    (headerAccepted cfg header = false →
      ∃ msg, csvGenerateLabels cfg fs input (header :: rest) = Except.error msg) ∧
    (2 ≤ header.length → header.get? 0 = some cfg.field_category →
      csvGenerateLabels cfg fs input (header :: rest) =
        rest.mapM (resolveRow fs input 0 1)) ∧
    (2 ≤ header.length → ¬ header.get? 0 = some cfg.field_category →
      header.get? 1 = some cfg.field_category →
      csvGenerateLabels cfg fs input (header :: rest) =
        rest.mapM (resolveRow fs input 1 0)) := by
  rw [csvGenerateLabels_cons]
  refine ⟨?_, ?_, ?_⟩
  · intro hacc
    unfold headerAccepted at hacc
    simp only [Bool.and_eq_false_iff, Bool.or_eq_false_iff,
      decide_eq_false_iff_not] at hacc
    by_cases hlen : header.length < 2
    · rw [if_pos hlen]
      exact ⟨_, rfl⟩
    · rcases hacc with hl | ⟨h0, h1⟩
      · exact absurd (by omega : header.length < 2) hlen
      · rw [if_neg hlen, if_neg h0, if_neg h1]
        exact ⟨_, rfl⟩
  · intro hlen h0
    rw [if_neg (by omega), if_pos h0]
  · intro hlen h0 h1
    rw [if_neg (by omega), if_neg h0, if_pos h1]

theorem csv_header_checks_category_only_witness :
    headerAccepted {} ["label", "path"] = false ∧
    ∃ msg,
      csvGenerateLabels {} (fun _ => true) "d"
          [["label", "path"], ["good", "a.png"]] =
        Except.error msg :=
  ⟨by decide,
    (csv_header_checks_category_only {} (fun _ => true) "d" ["label", "path"]
      [["good", "a.png"]]).1 (by decide)⟩

/-- Every pair emitted by the resampling loop of a base row carries that row
as its base. -/
lemma simRowLoop_base (pick : List SpecRow → ℕ) (spectra : List SpecRow)
    (training : Bool) (row : SpecRow) :
    ∀ m, ∀ p ∈ simRowLoop pick spectra training row m, p.base = row := by
  intro m
  induction m with
  | zero => intro p hp; exact absurd hp (List.not_mem_nil p)
  | succ n ih =>
    intro p hp
    rw [simRowLoop] at hp
    cases h1 : sampleOne pick (samePool spectra row) with
    | error e => rw [h1] at hp; exact absurd hp (List.not_mem_nil p)
    | ok s =>
      rw [h1] at hp
      cases h2 : sampleOne pick (diffPool spectra row) with
      | error e => rw [h2] at hp; exact absurd hp (List.not_mem_nil p)
      | ok d =>
        rw [h2] at hp
        rcases List.mem_cons.mp hp with hps | hp2
        · rw [hps]
        · rcases List.mem_cons.mp hp2 with hpd | hp3
          · rw [hpd]
          · exact ih p hp3

/-- C4: a base record whose compound has no other same-compound spectrum in
the pool makes the very first `sample(1)` raise ValueError, which the except
clause swallows: that base record contributes zero pairs (in particular zero
positive pairs), the batch is not aborted, and the output is exactly the
concatenated contributions of all remaining base records. -/
theorem similarity_singleton_skipped (pick : List SpecRow → ℕ)
    (resampling : ℕ) (training : Bool) (pre post : List SpecRow) (row : SpecRow)
    (h : samePool (pre ++ row :: post) row = []) :
    simRowLoop pick (pre ++ row :: post) training row resampling = [] ∧
    (∀ p ∈ simGenerateLabels pick resampling (pre ++ row :: post) training,
      ¬ p.base = row) ∧
    simGenerateLabels pick resampling (pre ++ row :: post) training =
      ((pre ++ post).map fun r =>
        simRowLoop pick (pre ++ row :: post) training r resampling).flatten := by
  have hloop : ∀ m, simRowLoop pick (pre ++ row :: post) training row m = [] := by
    intro m
    cases m with
    | zero => rfl
    | succ n =>
      rw [simRowLoop, h]
      rfl
  refine ⟨hloop resampling, ?_, ?_⟩
  · intro p hp hbase
    unfold simGenerateLabels at hp
    obtain ⟨l, hl, hpl⟩ := List.mem_flatten.mp hp
    obtain ⟨r, hr, hrl⟩ := List.mem_map.mp hl
    rw [← hrl] at hpl
    have hpr := simRowLoop_base pick _ training r resampling p hpl
    have hr_row : r = row := by rw [← hpr, hbase]
    rw [hr_row, hloop resampling] at hpl
    exact absurd hpl (List.not_mem_nil p)
  · unfold simGenerateLabels
    rw [List.map_append, List.map_cons, List.flatten_append, List.flatten_cons,
      hloop resampling, List.nil_append, ← List.flatten_append, ← List.map_append]

theorem similarity_singleton_skipped_witness :
    samePool ([] ++ { spectra_id := 1, name := "A", msms := "s1" } ::
        [{ spectra_id := 2, name := "B", msms := "s2" },
         { spectra_id := 3, name := "B", msms := "s3" }])
      { spectra_id := 1, name := "A", msms := "s1" } = [] ∧
    simRowLoop (fun _ => 0)
      ([] ++ { spectra_id := 1, name := "A", msms := "s1" } ::
        [{ spectra_id := 2, name := "B", msms := "s2" },
         { spectra_id := 3, name := "B", msms := "s3" }])
      true { spectra_id := 1, name := "A", msms := "s1" } 1 = [] :=
  ⟨by decide,
    (similarity_singleton_skipped (fun _ => 0) 1 true []
      [{ spectra_id := 2, name := "B", msms := "s2" },
       { spectra_id := 3, name := "B", msms := "s3" }]
      { spectra_id := 1, name := "A", msms := "s1" } (by decide)).1⟩

theorem groupby_sums_all_columns_witness :
    2 ≤ (groupMembers [(1000000001/1000000, 10), (1000000002/1000000, 20)] 1000).length ∧
      (groupedRow [(1000000001/1000000, 10), (1000000002/1000000, 20)] 1000).nominal =
        (([(1000000001/1000000, 10), (1000000002/1000000, 20)].filter
            fun p : ℚ × ℚ => groupKey p.1 = 1000).map fun p => pyTrunc p.1).sum :=
  ⟨by norm_num [groupMembers, peakRow, groupKey, pyRound, roundHalfEven, pyTrunc,
      List.filter],
    (groupby_sums_all_columns {} [(1000000001/1000000, 10), (1000000002/1000000, 20)]
      1000 (by norm_num [groupMembers, peakRow, groupKey, pyRound, roundHalfEven,
        pyTrunc, List.filter])).1⟩

end PySpec
